import Mathlib

/-!
Verification of the ILI9488_T4 display driver (`src/ILI9488Driver.cpp`).

This file gives a shallow embedding of the driver's differential-update /
buffering / vsync machinery and proves or refutes the frozen claims about it.

Conventions of the embedding:
* C machine integers are modelled by `Nat` / `Int`; where the C code uses
  unsigned 64-bit arithmetic the relevant quantities are shown to stay far
  below `2^64`, so plain `Nat` arithmetic is exact.
* Lean's `/` and `%` on `Int` are Euclidean; the C operators truncate toward
  zero.  Wherever a C division can see a negative operand we use `Int.tdiv` /
  `Int.tmod`, which match C; for non-negative operands the two agree.
* `float` computations of the refresh-rate calibration are modelled over `ℚ`
  (exact arithmetic with the same formulas).
* The asynchronous DMA machinery is modelled as a sequential state machine:
  interrupt completions are explicit `completeTransfer` steps, and the
  blocking waits of the driver run those steps until the DMA state is idle.

The driver's header (`ILI9488Driver.h`) is not part of the sources; the small
inline helpers that live there (`_clip`, `bufferingMode`, cushion constants,
`waitUpdateAsyncComplete`, `resync`) are modelled from the spec and are
marked `Modelled from the spec:` in their doc comments.
-/

namespace ILI9488

/-- Panel width in portrait orientation (`ILI9488_T4_TFTWIDTH`); the driver
comments call the panel "portrait 320x480". -/
def ILI9488_T4_TFTWIDTH : ℕ := 320

/-- Panel height in portrait orientation (`ILI9488_T4_TFTHEIGHT`). -/
def ILI9488_T4_TFTHEIGHT : ℕ := 480

/-- Number of scanline positions reported by the panel
(`ILI9488_T4_NB_SCANLINES`): `_getScanLine` maps the raw register value
"[0,161] to [0, 319]" and its doc comment says it returns a value in
`[0, 319]`, so there are 320 scanline positions. -/
def ILI9488_T4_NB_SCANLINES : ℕ := 320

/-!  ## VsyncClock: scanline extrapolation (`_getScanLine(false)`, C5)  -/

/-- `ILI9488Driver::_getScanLine(sync = false)` (ILI9488Driver.cpp:539-542):
`(_synced_scanline + ((((uint64_t)_synced_em) * ILI9488_T4_NB_SCANLINES) / _period)) % ILI9488_T4_NB_SCANLINES`.
`_synced_scanline` and `_synced_em` are 32-bit, the computation is done in
64-bit unsigned arithmetic; `noOverflow` in the theorem below shows the
`Nat` model is exact. -/
def getScanLineNoSync (synced_scanline synced_em period : ℕ) : ℕ :=
  (synced_scanline + (synced_em * ILI9488_T4_NB_SCANLINES) / period) %
    ILI9488_T4_NB_SCANLINES

/-!  ## setScroll (C10)  -/

/-- The vertical-scroll start address computed by `ILI9488Driver::setScroll`
(ILI9488Driver.cpp:448-462) and sent to the panel with the `VSCRSADD`
command: a negative offset is first shifted up by
`(((-offset) / ILI9488_T4_TFTHEIGHT) + 1) * ILI9488_T4_TFTHEIGHT`, then the
result is reduced `% 320`.  C's `/` and `%` truncate toward zero, hence
`Int.tdiv` / `Int.tmod`. -/
def setScrollOffset (offset : ℤ) : ℤ :=
  let o : ℤ :=
    if offset < 0 then
      offset + ((Int.tdiv (-offset) (ILI9488_T4_TFTHEIGHT : ℤ)) + 1) *
        (ILI9488_T4_TFTHEIGHT : ℤ)
    else offset
  Int.tmod o 320

/-!  ## Refresh-rate calibration (`_refreshRateForMode` / `_modeForRefreshRate`,
     C3 and C4).  The C code computes over `float`; the model uses exact `ℚ`
     arithmetic with the same formulas.  -/

/-- `ILI9488Driver::_refreshRateForMode` (ILI9488Driver.cpp:588-597):
`freq = 1000000.0f / _period_mode0`; if `mode >= 16` then `freq /= 2` and
`mode -= 16`; result `(freq * 16.0f) / (16.0f + mode)`. -/
def refreshRateForMode (period_mode0 : ℚ) (mode : ℤ) : ℚ :=
  let freq : ℚ := 1000000 / period_mode0
  if 16 ≤ mode then ((freq / 2) * 16) / (16 + ((mode : ℚ) - 16))
  else (freq * 16) / (16 + (mode : ℚ))

/-- The dichotomy loop of `ILI9488Driver::_modeForRefreshRate`
(ILI9488Driver.cpp:605-611): `while (b - a > 1) { int c = (a + b) / 2;
((hz < _refreshRateForMode(c)) ? a : b) = c; }`.  The loop is entered with
`a = 0`, `b = 31`, so `(a + b) / 2` only ever divides non-negative values
and Euclidean `/` matches C. -/
def dichoGo (period_mode0 hz : ℚ) (a b : ℤ) : ℤ × ℤ :=
  if h : b - a > 1 then
    if hz < refreshRateForMode period_mode0 ((a + b) / 2) then
      dichoGo period_mode0 hz ((a + b) / 2) b
    else
      dichoGo period_mode0 hz a ((a + b) / 2)
  else (a, b)
termination_by (b - a).toNat
decreasing_by all_goals omega

/-- `ILI9488Driver::_modeForRefreshRate` (ILI9488Driver.cpp:599-615). -/
def modeForRefreshRate (period_mode0 hz : ℚ) : ℤ :=
  if hz ≤ refreshRateForMode period_mode0 31 then 31
  else if refreshRateForMode period_mode0 0 ≤ hz then 0
  else
    let r := dichoGo period_mode0 hz 0 31
    let da := refreshRateForMode period_mode0 r.1 - hz
    let db := hz - refreshRateForMode period_mode0 r.2
    if da < db then r.1 else r.2

/-!  ## Margin / tear accounting (C6)  -/

/-- Scanline slack of one span, as computed before each span upload
(ILI9488Driver.cpp:1474 and 1184):
`_last_y + ILI9488_T4_TFTHEIGHT - _slinitpos - _nbScanlineDuring(_em_async)`
with `_last_y = (ILI9488_T4_TFTWIDTH * y + x + len) / ILI9488_T4_TFTWIDTH`.
All operands of the division are non-negative, so Euclidean `/` matches C. -/
def spanSlack (x y len slinitpos elapsedScanlines : ℤ) : ℤ :=
  ((ILI9488_T4_TFTWIDTH : ℤ) * y + x + len) / (ILI9488_T4_TFTWIDTH : ℤ) +
    (ILI9488_T4_TFTHEIGHT : ℤ) - slinitpos - elapsedScanlines

/-- One margin update (ILI9488Driver.cpp:1475-1476): `if (m < _margin) _margin = m;`. -/
def marginStep (margin m : ℤ) : ℤ := if m < margin then m else margin

/-- The final frame margin: `_margin` starts at `ILI9488_T4_NB_SCANLINES`
(ILI9488Driver.cpp:1270) and is lowered by `marginStep` at each span. -/
def frameMargin (slacks : List ℤ) : ℤ :=
  slacks.foldl marginStep (ILI9488_T4_NB_SCANLINES : ℤ)

end ILI9488

namespace ILI9488

/-!  ## The buffering / transfer state machine

The asynchronous DMA transfer engine is modelled as a sequential state
machine.  Pixel data is abstracted: an owned framebuffer is a `Buf` carrying
the pointer identity (`id`) and an abstract content tag (`content`); a full
`copyfb`/`computeDiff(..., copy = true)` over the whole frame replaces the
content tag by the submitted frame's tag, while a region-restricted copy
produces a blend of the old content and the new frame, modelled by the
injective pairing `Nat.pair`.  Diff buffers are tracked by presence only
(the claims never inspect diff contents); the model assumes a computed diff
is non-empty, so launching `_updateAsync` always enters the DMA-active
state.  Real-time quantities (upload/CPU statistics, per-span timing) are
outside the model; the per-frame margin evolution is verified separately on
`frameMargin` (claim C6), and the state machine keeps `margin` at its
initialisation value during a transfer.  -/

/-- An owned framebuffer: pointer identity plus abstract content tag. -/
structure Buf where
  id : ℕ
  content : ℕ
deriving DecidableEq, Repr

/-- Pixel pushes reaching the panel, recorded when a transfer is initiated. -/
inductive PushEvent
  /-- `_updateRectNow`: synchronous upload of one rectangle. -/
  | rect (xmin xmax ymin ymax : ℤ)
  /-- `_updateAsync` with a real diff (`_diff1`): uploads only changed spans. -/
  | asyncDiff (src : ℕ)
  /-- `_updateAsync` with a dummy diff: unconditional full-frame upload. -/
  | asyncDummy (src : ℕ)
  /-- `_updateNow` with a dummy diff: synchronous full-frame upload. -/
  | syncFull (src : ℕ)
deriving DecidableEq, Repr

/-- Panel register writes outside the pixel hot path. -/
inductive PanelWrite
  /-- `FRMCTR1` frame-rate-control write of `setRefreshMode`. -/
  | frmctr1 (diva rtna : ℕ)
  /-- `VSCRSADD` vertical-scroll start address of `setScroll`. -/
  | vscrsadd (offset : ℤ)
deriving DecidableEq, Repr

/-- `NO_BUFFERING` / `DOUBLE_BUFFERING` / `TRIPLE_BUFFERING`. -/
inductive BufMode
  | noBuffering
  | double
  | triple
deriving DecidableEq, Repr

/-- The driver state: the member variables of `ILI9488Driver` that the
buffering, mirroring, vsync and statistics logic reads and writes, plus two
observation logs (`displayed`, `trace`) standing for what actually reached
the panel. -/
structure DriverState where
  /-- `_fb1`: the main internal framebuffer (`none` = `nullptr`). -/
  fb1 : Option Buf
  /-- `_fb2`: the second internal framebuffer (triple buffering). -/
  fb2 : Option Buf
  /-- `_diff1 != nullptr`. -/
  diff1 : Bool
  /-- `_diff2 != nullptr`. -/
  diff2 : Bool
  /-- `_mirrorfb`: `some i` when the buffer with id `i` is recorded as
  mirroring the panel, `none` = `nullptr` = mirror state Unknown. -/
  mirrorfb : Option ℕ
  /-- `_ongoingDiff != nullptr`. -/
  ongoingDiff : Bool
  /-- `_fb2full`: a frame is queued in `_fb2`. -/
  fb2full : Bool
  /-- `_vsync_spacing`. -/
  vsyncSpacing : ℤ
  /-- `_rotation` (0..3). -/
  rotation : ℕ
  /-- `_width`. -/
  width : ℕ
  /-- `_height`. -/
  height : ℕ
  /-- `_refreshmode` (0..31). -/
  refreshmode : ℕ
  /-- `_period`: measured microseconds per refresh. -/
  period : ℕ
  /-- `_dma_state != ILI9488_T4_DMA_IDLE`: an async transfer is in flight. -/
  dmaActive : Bool
  /-- `_pcb`: the pending completion callback; the only callback ever
  installed is `&ILI9488Driver::_buffer2fullCB`, so a `Bool` suffices. -/
  pcb : Bool
  /-- Content tag of the frame being transferred (valid while `dmaActive`). -/
  transferSrc : ℕ
  /-- Content tags of completed async/sync full-frame transfers, in order. -/
  displayed : List ℕ
  /-- All pixel pushes initiated, in order. -/
  trace : List PushEvent
  /-- `_margin`. -/
  margin : ℤ
  /-- `_nbteared`. -/
  nbteared : ℕ
  /-- `_stats_nb_frame`. -/
  statsNbFrame : ℕ
  /-- `_statsvar_margin`, as the list of pushed samples. -/
  statsMargin : List ℤ
  /-- `_statsvar_vsyncspacing`, as the list of pushed samples. -/
  statsVsync : List ℤ
  /-- `_last_delta`. -/
  lastDelta : ℤ
  /-- `_late_start_ratio_override`: the one-shot hard-resync flag. -/
  lateStartOverride : Bool
  /-- Panel register writes performed, in order. -/
  panel : List PanelWrite
deriving DecidableEq, Repr

/-- Modelled from the spec: `bufferingMode()` lives in the missing header;
§4.2 defines NoBuffering = no owned buffer, DoubleBuffering = 1 owned
buffer, TripleBuffering = 2 owned buffers (`setFramebuffers` normalises
`_fb1 = nullptr, _fb2 ≠ nullptr` away, and `updateRegion` line 717 confirms
triple buffering means both internal framebuffers are set). -/
def bufferingMode (s : DriverState) : BufMode :=
  match s.fb1, s.fb2 with
  | none, _ => .noBuffering
  | some _, none => .double
  | some _, some _ => .triple

/-- Modelled from the spec: `_clip(v, lo, hi)` lives in the missing header;
§7 says out-of-range configuration values are "clamped". -/
def clip (v lo hi : ℕ) : ℕ := max lo (min v hi)

/-- Modelled from the spec: `resync()` lives in the missing header; §4.3
says "A one-shot override forces a hard resync after any event that
invalidates timing assumptions". -/
def resync (s : DriverState) : DriverState :=
  { s with lateStartOverride := true }

/-- `ILI9488Driver::statsReset()` (ILI9488Driver.cpp:1757-1768): zero the
frame counter, reset the statistics variables and zero the teared-frame
counter.  Of the reset members the model tracks `_stats_nb_frame`,
`_statsvar_margin`, `_statsvar_vsyncspacing` and `_nbteared`; the
elapsed-time total and the cpu/upload/pixel/transaction statsvars are
real-time measurements outside the model.  `_last_delta` is not touched. -/
def statsReset (s : DriverState) : DriverState :=
  { s with statsNbFrame := 0, statsMargin := [], statsVsync := [],
           nbteared := 0 }

/-- `_swapfb()`: exchange `_fb1` and `_fb2`. -/
def swapfb (s : DriverState) : DriverState :=
  { s with fb1 := s.fb2, fb2 := s.fb1 }

/-- `_swapdiff()`: exchange `_diff1` and `_diff2`. -/
def swapdiff (s : DriverState) : DriverState :=
  { s with diff1 := s.diff2, diff2 := s.diff1 }

/-- Full-frame `copyfb(_fb1, fb)` / `computeDiff(_fb1, fb, ..., copy = true)`:
`_fb1`'s content becomes the submitted frame. -/
def copyFullFb1 (s : DriverState) (f : ℕ) : DriverState :=
  { s with fb1 := s.fb1.map fun b => { b with content := f } }

/-- Full-frame `copyfb(_fb2, fb)`: `_fb2`'s content becomes the submitted frame. -/
def copyFullFb2 (s : DriverState) (f : ℕ) : DriverState :=
  { s with fb2 := s.fb2.map fun b => { b with content := f } }

/-- Region-restricted copy into `_fb1` (`DiffBuffBase::copyfb(_fb1, fb,
xmin, …)` or `computeDiff(..., region, copy = true)`): the new content
depends on both the old content and the submitted frame; `Nat.pair` is used
as an abstract content constructor for the blend. -/
def copyRegionFb1 (s : DriverState) (f : ℕ) : DriverState :=
  { s with fb1 := s.fb1.map fun b => { b with content := Nat.pair b.content f } }

end ILI9488

namespace ILI9488

/-- `ILI9488Driver::_endframe` (ILI9488Driver.cpp:1889-1913).  The pushes of
the upload-time / CPU-time / pixel / transaction statistics are real-time
measurements outside the model and are represented only by the frame
counter increment; the vsync block is modelled exactly. -/
def endframe (s : DriverState) : DriverState :=
  let s := { s with statsNbFrame := s.statsNbFrame + 1 }
  if 0 < s.vsyncSpacing then
    let s := if 0 < s.statsMargin.length then
        { s with statsVsync := s.statsVsync ++ [s.lastDelta] }
      else s
    let s := if s.margin < 0 then { s with nbteared := s.nbteared + 1 } else s
    { s with statsMargin := s.statsMargin ++ [s.margin] }
  else s

/-- Body of `ILI9488Driver::_updateAsync` (ILI9488Driver.cpp:1255-1339)
without its leading `waitUpdateAsyncComplete()`: checks its arguments,
resets `_margin` to `ILI9488_T4_NB_SCANLINES`, arms the DMA machinery on
`_fb1`'s pixels and returns.  The model assumes the diff is non-empty (the
empty-diff early-exit of lines 1279-1311 performs no upload).  `useDummy`
selects between `_dummydiff1` (always allocated: it is the address of the
member `_dd1`) and `_diff1` (may be `nullptr`). -/
def updateAsyncBody (s : DriverState) (useDummy : Bool) : DriverState :=
  match s.fb1 with
  | none => s
  | some b =>
    if useDummy = false ∧ s.diff1 = false then s
    else
      { s with dmaActive := true, transferSrc := b.content,
               margin := (ILI9488_T4_NB_SCANLINES : ℤ),
               trace := s.trace ++
                 [if useDummy then .asyncDummy b.content else .asyncDiff b.content] }

/-- `ILI9488Driver::_buffer2fullCB` (ILI9488Driver.cpp:995-1015): promote the
queued `_fb2` to `_fb1` and immediately start its transfer.  It is invoked
from the DMA-completion interrupt just after `_dma_state` is set to idle,
so the `waitUpdateAsyncComplete()` inside `_updateAsync` spins zero times
and `updateAsyncBody` is the faithful model of the `_updateAsync` call. -/
def buffer2fullCB (s : DriverState) : DriverState :=
  let s :=
    if s.mirrorfb ≠ none then
      let s := swapfb (swapdiff s)
      let s := { s with mirrorfb := s.fb1.map Buf.id, fb2full := false }
      updateAsyncBody s false
    else
      -- `_swapdummydiff()` exchanges `_dummydiff1`/`_dummydiff2`, which the
      -- model does not distinguish.
      let s := swapfb s
      let s := { s with mirrorfb := s.fb1.map Buf.id, fb2full := false }
      updateAsyncBody s true
  { s with pcb := false, ongoingDiff := false }

/-- The final-span DMA-completion interrupt: the `r < 0` branch of
`ILI9488Driver::_subFrameInterruptDiff` (ILI9488Driver.cpp:1481-1510):
`_endframe()`, DMA goes idle (the transferred frame has fully reached the
panel, recorded in `displayed`), then the pending callback runs once and is
cleared. -/
def completeTransfer (s : DriverState) : DriverState :=
  if s.dmaActive then
    let s := endframe { s with displayed := s.displayed ++ [s.transferSrc],
                               dmaActive := false }
    let s' := { s with pcb := false }
    if s.pcb then buffer2fullCB s' else s'
  else s

/-- Modelled from the spec: `waitUpdateAsyncComplete()` lives in the missing
header; §5 says the synchronous entry point "spins until the scheduler
reaches `Idle`".  Spinning lets the completion interrupt fire; the pending
callback can relaunch one transfer (`buffer2fullCB`) but installs no new
callback, so two completion steps always reach the idle state. -/
def waitUpdateAsyncComplete (s : DriverState) : DriverState :=
  completeTransfer (completeTransfer s)

/-- `while (_fb2full);` (ILI9488Driver.cpp:718-719 and 915-916): spin until
the queued frame is promoted, i.e. until the completion interrupt has run
the callback.  (If no transfer is active and no callback pending the C code
would spin forever; such states are unreachable.) -/
def waitFb2Free (s : DriverState) : DriverState :=
  if s.fb2full then completeTransfer s else s

/-- `ILI9488Driver::_updateAsync` (ILI9488Driver.cpp:1255-1339): argument
check, `waitUpdateAsyncComplete()`, then arm the transfer. -/
def updateAsync (s : DriverState) (useDummy : Bool) : DriverState :=
  if s.fb1 = none ∨ (useDummy = false ∧ s.diff1 = false) then s
  else updateAsyncBody (waitUpdateAsyncComplete s) useDummy

/-- `ILI9488Driver::_updateRectNow` (ILI9488Driver.cpp:1191-1253):
`waitUpdateAsyncComplete()`, `_startframe(false)`, synchronous upload of the
rectangle, `_endframe()`. -/
def updateRectNow (s : DriverState) (xmin xmax ymin ymax : ℤ) : DriverState :=
  let s := waitUpdateAsyncComplete s
  endframe { s with trace := s.trace ++ [.rect xmin xmax ymin ymax] }

end ILI9488

namespace ILI9488

/-- `ILI9488Driver::update(const uint16_t* fb, bool force_full_redraw)`
(ILI9488Driver.cpp:819-993).  `f` is the content tag of the caller's
framebuffer.  The `noInterrupts()/interrupts()` windows of the triple-
buffering branch are atomic in this sequential model, so the DMA-active
re-tests (lines 931, 955) see the same value as the test on line 921; the
dead `else` arms are kept to mirror the source. -/
def update (s0 : DriverState) (f : ℕ) (forceFull : Bool) : DriverState :=
  let s := { s0 with ongoingDiff := false }   -- line 821
  match bufferingMode s with
  | .noBuffering =>
    -- lines 827-834: wait, clear mirror, dummy diff, synchronous full push
    -- (`_updateNow` resets `_margin`, uploads every span, `_endframe`s).
    let s := waitUpdateAsyncComplete s
    let s := { s with mirrorfb := none }
    let s := waitUpdateAsyncComplete s        -- `_updateNow` waits again
    let s := { s with margin := (ILI9488_T4_NB_SCANLINES : ℤ),
                      trace := s.trace ++ [.syncFull f],
                      displayed := s.displayed ++ [f] }
    endframe s
  | .double =>
    if s.vsyncSpacing = -1 ∧ s.dmaActive then s   -- lines 838-841: drop frame
    else if s.diff1 = false ∨ s.mirrorfb = none ∨ forceFull then
      -- lines 843-851: full redraw via dummy diff
      let s := waitUpdateAsyncComplete s
      let s := copyFullFb1 s f
      let s := updateAsync s true
      { s with mirrorfb := s.fb1.map Buf.id }
    else if s.diff2 = false then
      -- lines 853-870: double buffering with a single diff
      let s := waitUpdateAsyncComplete s
      let s :=
        if s.mirrorfb = none ∨ forceFull then
          let s := copyFullFb1 s f
          updateAsync s true
        else
          let s := copyFullFb1 s f
          updateAsync s false
      { s with mirrorfb := s.fb1.map Buf.id }
    else
      -- lines 872-889: double buffering with two diffs
      let s :=
        if s.dmaActive then
          -- diff2 is computed against the untouched `_fb1` while the
          -- transfer is still running, then we wait, copy and swap.
          let s := waitUpdateAsyncComplete s
          let s := copyFullFb1 s f
          let s := swapdiff s
          updateAsync s false
        else
          let s := copyFullFb1 s f
          updateAsync s false
      { s with mirrorfb := s.fb1.map Buf.id }
  | .triple =>
    if s.dmaActive = false then
      -- lines 894-910: no transfer running, launch immediately
      if s.diff2 = false ∨ s.mirrorfb = none ∨ forceFull then
        let s := copyFullFb1 s f
        let s := updateAsync s true
        { s with mirrorfb := s.fb1.map Buf.id }
      else
        let s := copyFullFb1 s f
        let s := updateAsync s false
        { s with mirrorfb := s.fb1.map Buf.id }
    else
      -- lines 912-917: unless frames may be dropped, wait for `_fb2` free
      let s := if s.vsyncSpacing ≠ -1 then waitFb2Free s else s
      if s.dmaActive then
        let s := { s with pcb := false }      -- line 923: `_setCB()`
        if s.mirrorfb ≠ none ∧ forceFull = false ∧ s.diff2 then
          -- lines 925-948: stage a real diff in diff2 and the frame in fb2
          let s := copyFullFb2 s f
          if s.dmaActive then
            { s with pcb := true, fb2full := true,
                     mirrorfb := s.fb2.map Buf.id }
          else
            let s := swapfb (swapdiff s)
            let s := { s with mirrorfb := s.fb1.map Buf.id }
            updateAsync s false
        else
          -- lines 949-972: stage a dummy diff in dummydiff2, frame in fb2
          let s := copyFullFb2 s f
          if s.dmaActive then
            { s with pcb := true, fb2full := true, mirrorfb := none }
          else
            let s := swapfb s
            let s := { s with mirrorfb := s.fb1.map Buf.id }
            updateAsync s true
      else
        -- lines 974-990: the transfer finished while waiting
        if s.mirrorfb = none ∨ forceFull ∨ s.diff2 = false then
          let s := copyFullFb1 s f
          let s := updateAsync s true
          { s with mirrorfb := s.fb1.map Buf.id }
        else
          let s := copyFullFb1 s f
          let s := updateAsync s false
          { s with mirrorfb := s.fb1.map Buf.id }

/-- `ILI9488Driver::updateRegion(bool redrawNow, const uint16_t* fb, int
xmin, int xmax, int ymin, int ymax, int stride)` (ILI9488Driver.cpp:701-817).
`f` is the content tag of the caller's sub-framebuffer.  The dummy diffs
computed here cover only the requested region (the `stride` fix-up on lines
703-704 only affects pixel addressing and is dropped by the model). -/
def updateRegion (s0 : DriverState) (redrawNow : Bool) (f : ℕ)
    (xmin xmax ymin ymax : ℤ) : DriverState :=
  match bufferingMode s0 with
  | .noBuffering =>
    -- lines 707-714: push the rectangle right away, no diff, no mirror
    let s := { s0 with mirrorfb := none, ongoingDiff := false }
    updateRectNow s xmin xmax ymin ymax
  | mode =>
    -- line 716-719: triple buffering first waits until `_fb2` is free
    let s := if mode = .triple then waitFb2Free s0 else s0
    if s.diff2 = false then
      -- lines 723-746: no differential updates
      let s := { s with ongoingDiff := false }
      let s := waitUpdateAsyncComplete s
      let s := copyRegionFb1 s f   -- region dummy diff with copy into fb1
      if redrawNow then
        let s :=
          if s.mirrorfb ≠ none then updateRectNow s xmin xmax ymin ymax
          else updateAsync s true
        { s with mirrorfb := s.fb1.map Buf.id }
      else
        { s with mirrorfb := none }
    else if s.mirrorfb ≠ none then
      -- lines 749-775: the framebuffer mirrors the screen
      let s :=
        if s.dmaActive then
          -- region diff computed concurrently, then wait and copy
          let s := waitUpdateAsyncComplete s
          copyRegionFb1 s f
        else
          copyRegionFb1 s f      -- diff and copy in one pass
      let s := swapdiff s
      if redrawNow then
        let s := updateAsync s false
        { s with mirrorfb := s.fb1.map Buf.id, ongoingDiff := false }
      else
        { s with mirrorfb := none, ongoingDiff := true }
    else if s.ongoingDiff then
      -- lines 777-803: "in advance" w.r.t. the screen; the new region diff
      -- is merged with the ongoing diff (same state effects as above)
      let s :=
        if s.dmaActive then
          let s := waitUpdateAsyncComplete s
          copyRegionFb1 s f
        else
          copyRegionFb1 s f
      let s := swapdiff s
      if redrawNow then
        let s := updateAsync s false
        { s with mirrorfb := s.fb1.map Buf.id, ongoingDiff := false }
      else
        { s with mirrorfb := none, ongoingDiff := true }
    else
      -- lines 805-815: no mirror, no ongoing diff
      let s := waitUpdateAsyncComplete s
      let s := copyRegionFb1 s f
      if redrawNow then
        -- full-frame dummy diff (no region restriction), then full redraw
        let s := updateAsync s true
        { s with mirrorfb := s.fb1.map Buf.id }
      else s

/-- `ILI9488Driver::setRotation(uint8_t m)` (ILI9488Driver.cpp:468-493). -/
def setRotation (s : DriverState) (m0 : ℕ) : DriverState :=
  let m := clip m0 0 3
  if m = s.rotation then s
  else
    let s := waitUpdateAsyncComplete s
    let s := { s with mirrorfb := none, ongoingDiff := false }
    let s := statsReset s
    let s := { s with rotation := m,
                      width := if m = 0 ∨ m = 2 then ILI9488_T4_TFTWIDTH
                               else ILI9488_T4_TFTHEIGHT,
                      height := if m = 0 ∨ m = 2 then ILI9488_T4_TFTHEIGHT
                                else ILI9488_T4_TFTWIDTH }
    resync s

/-- `ILI9488Driver::setFramebuffers(uint16_t* fb1, uint16_t* fb2)`
(ILI9488Driver.cpp:621-646): wait, clear mirror/ongoing-diff/queued-frame
state, normalise the buffer assignment and zero both buffers (content tag
0). -/
def setFramebuffers (s : DriverState) (nfb1 nfb2 : Option Buf) : DriverState :=
  let s := waitUpdateAsyncComplete s
  let s := { s with mirrorfb := none, ongoingDiff := false, fb2full := false }
  let a := if nfb1 ≠ none then nfb1 else nfb2
  let b := if nfb1 ≠ none then nfb2 else nfb1
  let s := { s with fb1 := a.map fun bu => { bu with content := 0 },
                    fb2 := b.map fun bu => { bu with content := 0 } }
  resync s

/-- `ILI9488Driver::setRefreshMode(int mode)` (ILI9488Driver.cpp:499-520).
`measuredPeriod` is the frame period that `_sampleRefreshRate()` measures
on the real hardware after the mode change. -/
def setRefreshMode (s : DriverState) (mode : ℤ) (measuredPeriod : ℕ) :
    DriverState :=
  if mode < 0 ∨ 31 < mode then s   -- lines 501-502: invalid mode, do nothing
  else
    let diva : ℕ := if 16 ≤ mode then 1 else 0
    let m' : ℤ := if 16 ≤ mode then mode - 16 else mode
    let s := { s with refreshmode := mode.toNat }
    let s := waitUpdateAsyncComplete s
    let s := { s with panel := s.panel ++ [PanelWrite.frmctr1 diva (16 + m').toNat] }
    let s := { s with period := measuredPeriod }   -- `_sampleRefreshRate()`
    let s := statsReset s
    resync s

/-- `ILI9488Driver::setScroll(int offset)` (ILI9488Driver.cpp:448-462):
computes `setScrollOffset offset`, waits for any async update and writes
the value with the `VSCRSADD` command. -/
def setScroll (s : DriverState) (offset : ℤ) : DriverState :=
  let s := waitUpdateAsyncComplete s
  { s with panel := s.panel ++ [.vscrsadd (setScrollOffset offset)] }

end ILI9488

namespace ILI9488

/-- A concrete idle driver state used to instantiate theorems with
hypotheses: double buffering (only `_fb1` set), two diff buffers, no
transfer in flight, default vsync spacing 2. -/
def baseState : DriverState where
  fb1 := some ⟨1, 5⟩
  fb2 := none
  diff1 := true
  diff2 := true
  mirrorfb := none
  ongoingDiff := false
  fb2full := false
  vsyncSpacing := 2
  rotation := 0
  width := ILI9488_T4_TFTWIDTH
  height := ILI9488_T4_TFTHEIGHT
  refreshmode := 0
  period := 15000
  dmaActive := false
  pcb := false
  transferSrc := 0
  displayed := []
  trace := []
  margin := (ILI9488_T4_NB_SCANLINES : ℤ)
  nbteared := 0
  statsNbFrame := 0
  statsMargin := []
  statsVsync := []
  lastDelta := 0
  lateStartOverride := true
  panel := []

/-- Claim C5: querying the current scanline without hardware
resynchronisation returns
`(last_synced_scanline + elapsed_µs * nb_scanlines / period) % nb_scanlines`
in integer arithmetic, a value in `[0, nb_scanlines)`; with 32-bit inputs
the 64-bit computation of the C code cannot overflow, so the `Nat` model is
exact. -/
theorem C5_getScanLineNoSync_spec (sl em p : ℕ)
    (hsl : sl < 2 ^ 32) (hem : em < 2 ^ 32) (_hp : 0 < p) :
    getScanLineNoSync sl em p
        = (sl + em * ILI9488_T4_NB_SCANLINES / p) % ILI9488_T4_NB_SCANLINES ∧
      getScanLineNoSync sl em p < ILI9488_T4_NB_SCANLINES ∧
      sl + em * ILI9488_T4_NB_SCANLINES / p < 2 ^ 64 := by
  refine ⟨rfl, Nat.mod_lt _ (by norm_num [ILI9488_T4_NB_SCANLINES]), ?_⟩
  have h1 : em * ILI9488_T4_NB_SCANLINES / p ≤ em * 320 := by
    simpa [ILI9488_T4_NB_SCANLINES] using
      Nat.div_le_self (em * 320) p
  omega

/-- Witness for C5 at a concrete synchronisation sample. -/
theorem C5_getScanLineNoSync_witness :
    getScanLineNoSync 10 3000 15000
        = (10 + 3000 * ILI9488_T4_NB_SCANLINES / 15000) % ILI9488_T4_NB_SCANLINES ∧
      getScanLineNoSync 10 3000 15000 < ILI9488_T4_NB_SCANLINES ∧
      10 + 3000 * ILI9488_T4_NB_SCANLINES / 15000 < 2 ^ 64 :=
  C5_getScanLineNoSync_spec 10 3000 15000 (by norm_num) (by norm_num)
    (by norm_num)

/-- Claim C10: for every integer offset, the vertical-scroll start address
sent by `setScroll` lies in `[0, 320)`; a negative offset is first made
non-negative by adding a multiple of the 480-pixel panel height (`k = 0`
for a non-negative offset), and the result is reduced modulo 320. -/
theorem C10_setScrollOffset_spec (offset : ℤ) :
    0 ≤ setScrollOffset offset ∧ setScrollOffset offset < 320 ∧
      ∃ k : ℤ, 0 ≤ offset + k * 480 ∧
        setScrollOffset offset = (offset + k * 480) % 320 ∧
        (0 ≤ offset → k = 0) := by
  unfold setScrollOffset
  by_cases h : offset < 0
  · simp only [if_pos h, ILI9488_T4_TFTHEIGHT]
    have hq := Int.ediv_add_emod (-offset) 480
    have hr0 : 0 ≤ (-offset) % 480 := Int.emod_nonneg _ (by norm_num)
    have hr1 : (-offset) % 480 < 480 := Int.emod_lt_of_pos _ (by norm_num)
    have htd : Int.tdiv (-offset) (480 : ℤ) = (-offset) / 480 :=
      Int.tdiv_eq_ediv (by omega) (by norm_num)
    push_cast
    rw [htd]
    set o : ℤ := offset + ((-offset) / 480 + 1) * 480 with ho
    have hopos : 0 ≤ o := by omega
    have htm : Int.tmod o 320 = o % 320 := Int.tmod_eq_emod hopos (by norm_num)
    rw [htm]
    refine ⟨Int.emod_nonneg _ (by norm_num), Int.emod_lt_of_pos _ (by norm_num),
      (-offset) / 480 + 1, by omega, by rw [ho], fun hc => absurd hc (by omega)⟩
  · simp only [if_neg h]
    have h0 : (0 : ℤ) ≤ offset := by omega
    have htm : Int.tmod offset 320 = offset % 320 :=
      Int.tmod_eq_emod h0 (by norm_num)
    rw [htm]
    exact ⟨Int.emod_nonneg _ (by norm_num), Int.emod_lt_of_pos _ (by norm_num),
      0, by omega, by norm_num, fun _ => rfl⟩

/-- Claim C4: for every mode, the computed refresh rate follows the
documented formula with `baseHz` the rate of mode 0:
`baseHz * 16 / (16 + m)` for `m < 16` and
`(baseHz / 2) * 16 / (16 + (m - 16))` for `m ≥ 16`. -/
theorem C4_refreshRateForMode_formula (p0 : ℚ) (m : ℤ) :
    refreshRateForMode p0 m =
      if m < 16 then refreshRateForMode p0 0 * 16 / (16 + (m : ℚ))
      else (refreshRateForMode p0 0 / 2) * 16 / (16 + ((m : ℚ) - 16)) := by
  have h0 : refreshRateForMode p0 0 = 1000000 / p0 := by
    norm_num [refreshRateForMode]
  by_cases h : (16 : ℤ) ≤ m
  · rw [refreshRateForMode, if_pos h, if_neg (not_lt.mpr h), h0]
  · rw [refreshRateForMode, if_neg h, if_pos (not_le.mp h), h0]

end ILI9488

namespace ILI9488

/-- The margin fold is negative iff the initial value is negative or some
pushed slack is negative. -/
lemma foldl_marginStep_neg (L : List ℤ) :
    ∀ init : ℤ, L.foldl marginStep init < 0 ↔ init < 0 ∨ ∃ m ∈ L, m < 0 := by
  induction L with
  | nil => intro init; simp
  | cons x xs ih =>
    intro init
    rw [List.foldl_cons, ih]
    unfold marginStep
    constructor
    · rintro (h | h)
      · split at h
        · exact Or.inr ⟨x, by simp, h⟩
        · exact Or.inl h
      · exact Or.inr (by obtain ⟨m, hm, hneg⟩ := h; exact ⟨m, by simp [hm], hneg⟩)
    · rintro (h | ⟨m, hm, hneg⟩)
      · left; split
        · omega
        · exact h
      · rcases List.mem_cons.mp hm with rfl | hmem
        · left; split
          · exact hneg
          · omega
        · exact Or.inr ⟨m, hmem, hneg⟩

/-- Claim C6: at the end of a vsync-paced frame whose final margin is the
`frameMargin` fold of the frame's span slacks, `_endframe` increments the
teared-frame counter exactly when that margin is negative, and the margin
is negative iff some span's slack is negative. -/
theorem C6_endframe_teared_iff (s : DriverState) (L : List ℤ)
    (hv : 0 < s.vsyncSpacing) :
    (endframe { s with margin := frameMargin L }).nbteared
        = s.nbteared + (if frameMargin L < 0 then 1 else 0) ∧
      (frameMargin L < 0 ↔ ∃ m ∈ L, m < 0) := by
  constructor
  · simp only [endframe, hv, if_pos]
    split
    · split
      · simp
      · simp
    · split
      · simp
      · simp
  · rw [frameMargin, foldl_marginStep_neg]
    have : ¬ ((ILI9488_T4_NB_SCANLINES : ℤ) < 0) := by
      norm_num [ILI9488_T4_NB_SCANLINES]
    tauto

/-- Witness for C6: a frame with one overrun span (slack `-3`) from a state
with vsync spacing 2 is counted as teared. -/
theorem C6_endframe_teared_witness :
    (endframe { baseState with margin := frameMargin [5, -3] }).nbteared
        = baseState.nbteared + (if frameMargin [5, -3] < 0 then 1 else 0) ∧
      (frameMargin [5, -3] < 0 ↔ ∃ m ∈ [(5 : ℤ), -3], m < 0) :=
  C6_endframe_teared_iff baseState [5, -3] (by norm_num [baseState])

end ILI9488

namespace ILI9488

/-- Claim C8: invalid configuration values are never fatal — `setRotation`
clamps its argument into `0..3` (calling it with any argument is the same
as calling it with the clamped argument, and the stored rotation stays in
range), and `setRefreshMode` with a mode outside `0..31` leaves the whole
driver state, panel writes included, unchanged. -/
theorem C8_invalid_config_safe (s : DriverState) (m0 : ℕ) (mode : ℤ) (p : ℕ)
    (hmode : mode < 0 ∨ 31 < mode) :
    (setRotation s m0).rotation ≤ 3 ∧
      setRotation s m0 = setRotation s (clip m0 0 3) ∧
      setRefreshMode s mode p = s := by
  have hcc : clip (clip m0 0 3) 0 3 = clip m0 0 3 := by
    simp only [clip]; omega
  refine ⟨?_, ?_, ?_⟩
  · dsimp only [setRotation]
    split
    · next h => simp only [clip] at h; omega
    · simp [resync, clip]
  · simp only [setRotation, hcc]
  · rw [setRefreshMode, if_pos hmode]

/-- Witness for C8: rotation argument 200 is clamped, refresh mode 32 is
ignored. -/
theorem C8_invalid_config_witness :
    (setRotation baseState 200).rotation ≤ 3 ∧
      setRotation baseState 200 = setRotation baseState (clip 200 0 3) ∧
      setRefreshMode baseState 32 7 = baseState :=
  C8_invalid_config_safe baseState 200 32 7 (by norm_num)

end ILI9488

namespace ILI9488

/-- `refreshRateForMode` is strictly antitone on the mode range: a higher
mode yields a strictly lower refresh rate (the divider grows, and modes
`≥ 16` additionally halve the base frequency). -/
lemma refreshRate_strictAnti (p0 : ℚ) (hp : 0 < p0) {m m' : ℤ}
    (hm0 : 0 ≤ m) (hmm : m < m') (_hm31 : m' ≤ 31) :
    refreshRateForMode p0 m' < refreshRateForMode p0 m := by
  have hF : 0 < (1000000 : ℚ) / p0 := by positivity
  unfold refreshRateForMode
  by_cases h1 : (16 : ℤ) ≤ m
  · have h2 : (16 : ℤ) ≤ m' := le_trans h1 (le_of_lt hmm)
    rw [if_pos h1, if_pos h2]
    have hq1 : (16 : ℚ) ≤ (m : ℚ) := by exact_mod_cast h1
    have hq2 : (m : ℚ) < (m' : ℚ) := by exact_mod_cast hmm
    exact div_lt_div_of_pos_left (by positivity) (by linarith) (by linarith)
  · by_cases h2 : (16 : ℤ) ≤ m'
    · rw [if_neg h1, if_pos h2]
      have hm15 : (m : ℚ) ≤ 15 := by exact_mod_cast (by omega : m ≤ 15)
      have hmq0 : (0 : ℚ) ≤ (m : ℚ) := by exact_mod_cast hm0
      have hm16 : (16 : ℚ) ≤ (m' : ℚ) := by exact_mod_cast h2
      have step1 : ((1000000 / p0) / 2 * 16) / (16 + ((m' : ℚ) - 16))
            ≤ ((1000000 / p0) / 2 * 16) / 16 :=
        div_le_div_of_nonneg_left (by positivity) (by norm_num) (by linarith)
      have step2 : ((1000000 / p0) / 2 * 16) / 16
            < ((1000000 / p0) * 16) / (16 + (m : ℚ)) := by
        rw [div_lt_div_iff₀ (by norm_num) (by linarith)]
        nlinarith [mul_le_mul_of_nonneg_left hm15 (le_of_lt hF)]
      linarith
    · rw [if_neg h1, if_neg h2]
      have hq1 : (m : ℚ) < (m' : ℚ) := by exact_mod_cast hmm
      have hmq0 : (0 : ℚ) ≤ (m : ℚ) := by exact_mod_cast hm0
      exact div_lt_div_of_pos_left (by positivity) (by linarith) (by linarith)


/-- The dichotomy of `_modeForRefreshRate`, launched on an interval
`a < m ≤ b` around the exact rate of mode `m`, closes in on `m`: the final
upper bound is exactly `m` and the final lower bound stays below `m`. -/
lemma dichoGo_reaches (p0 : ℚ) (hp : 0 < p0) (m : ℤ) (hm0 : 0 ≤ m)
    (hm31 : m ≤ 31) :
    ∀ n : ℕ, ∀ a b : ℤ, (b - a).toNat ≤ n → 0 ≤ a → a < m → m ≤ b → b ≤ 31 →
      (dichoGo p0 (refreshRateForMode p0 m) a b).1 < m ∧
      0 ≤ (dichoGo p0 (refreshRateForMode p0 m) a b).1 ∧
      (dichoGo p0 (refreshRateForMode p0 m) a b).2 = m := by
  intro n
  induction n with
  | zero => intro a b hn ha0 ham hmb hb31; omega
  | succ n ih =>
    intro a b hn ha0 ham hmb hb31
    rw [dichoGo]
    by_cases hab : b - a > 1
    · rw [dif_pos hab]
      have hc1 : a + 1 ≤ (a + b) / 2 := by omega
      have hc2 : (a + b) / 2 ≤ b - 1 := by omega
      by_cases hlt : refreshRateForMode p0 m
          < refreshRateForMode p0 ((a + b) / 2)
      · rw [if_pos hlt]
        have hcm : (a + b) / 2 < m := by
          by_contra hcon
          push_neg at hcon
          rcases eq_or_lt_of_le hcon with heq | hlt2
          · rw [heq] at hlt; exact absurd hlt (lt_irrefl _)
          · have := refreshRate_strictAnti p0 hp hm0 hlt2 (by omega)
            linarith
        exact ih ((a + b) / 2) b (by omega) (by omega) hcm hmb hb31
      · rw [if_neg hlt]
        have hmc : m ≤ (a + b) / 2 := by
          by_contra hcon
          push_neg at hcon
          exact hlt (refreshRate_strictAnti p0 hp (by omega) hcon hm31)
        exact ih a ((a + b) / 2) (by omega) ha0 ham hmc (by omega)
    · rw [dif_neg hab]
      exact ⟨ham, ha0, by omega⟩


/-- Claim C3: for every refresh mode `m` in `0..31`, converting `m` to its
refresh rate and converting that rate back to the nearest mode returns `m`
(for any positive measured period of mode 0; the `float` computation is
modelled by exact rational arithmetic). -/
theorem C3_mode_roundtrip (p0 : ℚ) (hp : 0 < p0) (m : ℤ) (hm0 : 0 ≤ m)
    (hm31 : m ≤ 31) :
    modeForRefreshRate p0 (refreshRateForMode p0 m) = m := by
  unfold modeForRefreshRate
  by_cases h31 : m = 31
  · subst h31; rw [if_pos (le_refl _)]
  · have hgt : refreshRateForMode p0 31 < refreshRateForMode p0 m :=
      refreshRate_strictAnti p0 hp hm0 (by omega) (le_refl 31)
    rw [if_neg (not_le.mpr hgt)]
    by_cases h0 : m = 0
    · subst h0; rw [if_pos (le_refl _)]
    · have hgt0 : refreshRateForMode p0 m < refreshRateForMode p0 0 :=
        refreshRate_strictAnti p0 hp (le_refl 0) (by omega) hm31
      rw [if_neg (not_le.mpr hgt0)]
      obtain ⟨h1, h2, h3⟩ := dichoGo_reaches p0 hp m hm0 hm31 31 0 31
        (by norm_num) (by norm_num) (by omega) hm31 (by norm_num)
      dsimp only
      rw [h3]
      have hda : refreshRateForMode p0 m
          < refreshRateForMode p0 (dichoGo p0 (refreshRateForMode p0 m) 0 31).1 :=
        refreshRate_strictAnti p0 hp h2 h1 hm31
      rw [if_neg (by linarith)]

/-- Witness for C3 at mode 7 with a 16 ms mode-0 period. -/
theorem C3_mode_roundtrip_witness :
    modeForRefreshRate 16000 (refreshRateForMode 16000 7) = 7 :=
  C3_mode_roundtrip 16000 (by norm_num) 7 (by norm_num) (by norm_num)

end ILI9488

namespace ILI9488

/-- `_endframe` only touches the statistics counters; all other state is
preserved.  The following projection lemmas let proofs read fields through
it without unfolding its conditionals. -/
@[simp] lemma endframe_mirrorfb (s : DriverState) :
    (endframe s).mirrorfb = s.mirrorfb := by
  unfold endframe; dsimp only; split_ifs <;> rfl

@[simp] lemma endframe_fb1 (s : DriverState) : (endframe s).fb1 = s.fb1 := by
  unfold endframe; dsimp only; split_ifs <;> rfl

@[simp] lemma endframe_fb2 (s : DriverState) : (endframe s).fb2 = s.fb2 := by
  unfold endframe; dsimp only; split_ifs <;> rfl

@[simp] lemma endframe_diff1 (s : DriverState) : (endframe s).diff1 = s.diff1 := by
  unfold endframe; dsimp only; split_ifs <;> rfl

@[simp] lemma endframe_diff2 (s : DriverState) : (endframe s).diff2 = s.diff2 := by
  unfold endframe; dsimp only; split_ifs <;> rfl

@[simp] lemma endframe_ongoingDiff (s : DriverState) :
    (endframe s).ongoingDiff = s.ongoingDiff := by
  unfold endframe; dsimp only; split_ifs <;> rfl

@[simp] lemma endframe_fb2full (s : DriverState) :
    (endframe s).fb2full = s.fb2full := by
  unfold endframe; dsimp only; split_ifs <;> rfl

@[simp] lemma endframe_vsyncSpacing (s : DriverState) :
    (endframe s).vsyncSpacing = s.vsyncSpacing := by
  unfold endframe; dsimp only; split_ifs <;> rfl

@[simp] lemma endframe_dmaActive (s : DriverState) :
    (endframe s).dmaActive = s.dmaActive := by
  unfold endframe; dsimp only; split_ifs <;> rfl

@[simp] lemma endframe_pcb (s : DriverState) : (endframe s).pcb = s.pcb := by
  unfold endframe; dsimp only; split_ifs <;> rfl

@[simp] lemma endframe_transferSrc (s : DriverState) :
    (endframe s).transferSrc = s.transferSrc := by
  unfold endframe; dsimp only; split_ifs <;> rfl

@[simp] lemma endframe_displayed (s : DriverState) :
    (endframe s).displayed = s.displayed := by
  unfold endframe; dsimp only; split_ifs <;> rfl

@[simp] lemma endframe_trace (s : DriverState) : (endframe s).trace = s.trace := by
  unfold endframe; dsimp only; split_ifs <;> rfl

@[simp] lemma endframe_margin (s : DriverState) : (endframe s).margin = s.margin := by
  unfold endframe; dsimp only; split_ifs <;> rfl

@[simp] lemma endframe_rotation (s : DriverState) :
    (endframe s).rotation = s.rotation := by
  unfold endframe; dsimp only; split_ifs <;> rfl

@[simp] lemma endframe_panel (s : DriverState) : (endframe s).panel = s.panel := by
  unfold endframe; dsimp only; split_ifs <;> rfl

/-- Claim C7 (amended to the exact guard of the code): in double-buffering
mode, when `_vsync_spacing` is exactly `-1` and an asynchronous update is
active, `update` returns immediately and drops the frame — both owned
framebuffers are untouched, nothing new reaches the panel and the running
transfer is left as it was. -/
theorem C7_double_drop_frame (s : DriverState) (f : ℕ) (force : Bool)
    (hmode : bufferingMode s = BufMode.double)
    (hv : s.vsyncSpacing = -1) (hd : s.dmaActive = true) :
    (update s f force).fb1 = s.fb1 ∧ (update s f force).fb2 = s.fb2 ∧
      (update s f force).trace = s.trace ∧
      (update s f force).displayed = s.displayed ∧
      (update s f force).dmaActive = s.dmaActive ∧
      (update s f force).transferSrc = s.transferSrc := by
  rcases s with ⟨fb1, fb2, d1, d2, mir, og, f2f, vs, rot, w, h, rm, per, dma,
    pcb, tsrc, disp, tr, mg, nbt, snf, smg, svs, ld, lso, pan⟩
  dsimp only at hv hd
  subst hv hd
  cases fb1 <;> cases fb2 <;> simp_all [bufferingMode, update]

/-- Witness for C7: a concrete double-buffered state with an active
transfer and `vsync_spacing = -1` drops the submitted frame. -/
theorem C7_double_drop_frame_witness :
    (update { baseState with vsyncSpacing := -1, dmaActive := true } 9 false).fb1
        = ({ baseState with vsyncSpacing := -1, dmaActive := true } : DriverState).fb1 ∧
      (update { baseState with vsyncSpacing := -1, dmaActive := true } 9 false).fb2
        = ({ baseState with vsyncSpacing := -1, dmaActive := true } : DriverState).fb2 ∧
      (update { baseState with vsyncSpacing := -1, dmaActive := true } 9 false).trace
        = ({ baseState with vsyncSpacing := -1, dmaActive := true } : DriverState).trace ∧
      (update { baseState with vsyncSpacing := -1, dmaActive := true } 9 false).displayed
        = ({ baseState with vsyncSpacing := -1, dmaActive := true } : DriverState).displayed ∧
      (update { baseState with vsyncSpacing := -1, dmaActive := true } 9 false).dmaActive
        = ({ baseState with vsyncSpacing := -1, dmaActive := true } : DriverState).dmaActive ∧
      (update { baseState with vsyncSpacing := -1, dmaActive := true } 9 false).transferSrc
        = ({ baseState with vsyncSpacing := -1, dmaActive := true } : DriverState).transferSrc :=
  C7_double_drop_frame { baseState with vsyncSpacing := -1, dmaActive := true }
    9 false (by decide) (by decide) (by decide)

/-- The state of the C7 counter-example: double buffering, an active
transfer, and the (unclamped) vsync spacing `-2`. -/
def c7State : DriverState :=
  { baseState with vsyncSpacing := -2, dmaActive := true, transferSrc := 4,
                   diff1 := false }

/-- Counter-example for C7 as stated: with the negative vsync spacing `-2`
(the guard on line 838 tests `== -1`, not `< 0`) and an active transfer,
the submitted frame is not dropped: the driver waits, overwrites `_fb1`
with the new frame and launches a new full transfer of it. -/
theorem C7_counterexample :
    c7State.vsyncSpacing < 0 ∧ c7State.dmaActive = true ∧
      bufferingMode c7State = BufMode.double ∧
      (update c7State 9 false).fb1 ≠ c7State.fb1 ∧
      (update c7State 9 false).trace
        = c7State.trace ++ [PushEvent.asyncDummy 9] ∧
      (update c7State 9 false).transferSrc = 9 := by decide

end ILI9488

namespace ILI9488

/-- Claim C1, amended: after every call to `updateRegion` that does not
redraw immediately (`redrawNow = false`), the mirror state is Unknown
(`_mirrorfb == nullptr`): no owned framebuffer is recorded as matching the
panel.  The hypothesis is the driver's invariant that a pending completion
callback only exists together with a queued secondary frame in triple
buffering.  (With `redrawNow = true` the code may legitimately keep the
mirror, see the counter-example.) -/
theorem C1_updateRegion_noredraw_mirror_unknown (s : DriverState) (f : ℕ)
    (x0 x1 y0 y1 : ℤ)
    (hwf : s.pcb = true → s.fb2full = true ∧ bufferingMode s = BufMode.triple) :
    (updateRegion s false f x0 x1 y0 y1).mirrorfb = none := by
  rcases s with ⟨fb1, fb2, d1, d2, mir, og, f2f, vs, rot, w, h, rm, per, dma,
    pcb, tsrc, disp, tr, mg, nbt, snf, smg, svs, ld, lso, pan⟩
  cases fb1 <;> cases fb2 <;> cases pcb <;> cases dma <;> cases f2f <;>
    cases d1 <;> cases d2 <;> cases og <;> cases mir <;>
      simp_all [updateRegion, bufferingMode, updateRectNow,
        waitUpdateAsyncComplete, waitFb2Free, completeTransfer, buffer2fullCB,
        updateAsyncBody, updateAsync, swapfb, swapdiff, copyRegionFb1]

/-- Witness for C1 (amended), from a double-buffered mirroring state. -/
theorem C1_updateRegion_noredraw_witness :
    (updateRegion { baseState with mirrorfb := some 1 } false 7 0 0 0 0).mirrorfb
      = none :=
  C1_updateRegion_noredraw_mirror_unknown { baseState with mirrorfb := some 1 }
    7 0 0 0 0 (by decide)

/-- The state of the C1 counter-example: double buffering without a second
diff buffer, `_fb1` mirrors the panel, no transfer running. -/
def c1State : DriverState :=
  { baseState with diff2 := false, mirrorfb := some 1 }

/-- Counter-example for C1 as stated: from `c1State`, a `redrawNow` region
update pushes only the one-pixel rectangle `(0,0)-(0,0)` — far from
covering the 320×480 panel — yet afterwards `_mirrorfb` is `_fb1`, not
Unknown (ILI9488Driver.cpp:728-740: the panel and `_fb1` received the same
region, so the code keeps them recorded as equal). -/
theorem C1_counterexample :
    (updateRegion c1State true 7 0 0 0 0).trace
        = c1State.trace ++ [PushEvent.rect 0 0 0 0] ∧
      (updateRegion c1State true 7 0 0 0 0).mirrorfb = some 1 := by decide

end ILI9488

namespace ILI9488

/-- Claim C2, amended: the newest-wins depth-1 queue of triple buffering is
the behaviour of the frame-dropping mode `vsync_spacing = -1` (with
`vsync_spacing ≥ 0` a further submit blocks on `while (_fb2full);` until
the queued frame has been promoted, and no frame is dropped — see the
counter-example).  With `vsync_spacing = -1`, from an idle mirroring
triple-buffered state: the first submit starts its transfer; a submit
during that transfer stores the frame into the secondary buffer without
blocking; a further submit overwrites the secondary buffer without
blocking; the completion callback promotes the secondary buffer to primary
and immediately starts its transfer — so of the three submissions exactly
the first and last are displayed and the middle one is dropped. -/
theorem C2_triple_newest_wins (s : DriverState) (b1 b2 : Buf) (f1 f2 f3 : ℕ)
    (hfb1 : s.fb1 = some b1) (hfb2 : s.fb2 = some b2)
    (hd1 : s.diff1 = true) (hd2 : s.diff2 = true)
    (hmir : s.mirrorfb = some b1.id) (hdma : s.dmaActive = false)
    (hf2f : s.fb2full = false) (hpcb : s.pcb = false)
    (hv : s.vsyncSpacing = -1) :
    (update s f1 false).dmaActive = true ∧
      (update s f1 false).transferSrc = f1 ∧
      (update (update s f1 false) f2 false).fb2 = some ⟨b2.id, f2⟩ ∧
      (update (update s f1 false) f2 false).fb2full = true ∧
      (update (update s f1 false) f2 false).transferSrc = f1 ∧
      (update (update s f1 false) f2 false).displayed = s.displayed ∧
      (update (update (update s f1 false) f2 false) f3 false).fb2
        = some ⟨b2.id, f3⟩ ∧
      (update (update (update s f1 false) f2 false) f3 false).transferSrc = f1 ∧
      (update (update (update s f1 false) f2 false) f3 false).displayed
        = s.displayed ∧
      (completeTransfer (update (update (update s f1 false) f2 false) f3 false)).fb1
        = some ⟨b2.id, f3⟩ ∧
      (completeTransfer (update (update (update s f1 false) f2 false) f3 false)).dmaActive
        = true ∧
      (completeTransfer (update (update (update s f1 false) f2 false) f3 false)).transferSrc
        = f3 ∧
      (completeTransfer (update (update (update s f1 false) f2 false) f3 false)).fb2full
        = false ∧
      (completeTransfer (update (update (update s f1 false) f2 false) f3 false)).displayed
        = s.displayed ++ [f1] ∧
      (completeTransfer (completeTransfer
          (update (update (update s f1 false) f2 false) f3 false))).displayed
        = s.displayed ++ [f1, f3] := by
  rcases s with ⟨fb1, fb2, d1, d2, mir, og, f2f, vs, rot, w, h, rm, per, dma,
    pcb, tsrc, disp, tr, mg, nbt, snf, smg, svs, ld, lso, pan⟩
  dsimp only at hfb1 hfb2 hd1 hd2 hmir hdma hf2f hpcb hv
  subst hfb1 hfb2 hd1 hd2 hmir hdma hf2f hpcb hv
  simp [update, bufferingMode, updateAsync, updateAsyncBody,
    waitUpdateAsyncComplete, completeTransfer, buffer2fullCB, waitFb2Free,
    copyFullFb1, copyFullFb2, swapdiff, swapfb]

/-- The idle triple-buffered frame-dropping state of the C2 witness. -/
def c2State : DriverState :=
  { baseState with fb2 := some ⟨2, 6⟩, mirrorfb := some 1, vsyncSpacing := -1 }

/-- Witness for C2 (amended): three rapid submissions `11, 12, 13` from
`c2State` display exactly the first and last. -/
theorem C2_triple_newest_wins_witness :
    (completeTransfer (completeTransfer
        (update (update (update c2State 11 false) 12 false) 13 false))).displayed
      = c2State.displayed ++ [11, 13] :=
  (C2_triple_newest_wins c2State ⟨1, 5⟩ ⟨2, 6⟩ 11 12 13 rfl rfl rfl rfl rfl
    rfl rfl rfl rfl).2.2.2.2.2.2.2.2.2.2.2.2.2.2

/-- The same state with the default vsync pacing (spacing 2). -/
def c2vState : DriverState :=
  { baseState with fb2 := some ⟨2, 6⟩, mirrorfb := some 1, vsyncSpacing := 2 }

/-- Counter-example for C2 as stated: in triple buffering with
`vsync_spacing = 2`, three rapid submissions during one slow transfer are
all displayed — the second pending submit blocks on `while (_fb2full);`
(ILI9488Driver.cpp:913-917) instead of overwriting the secondary buffer,
so the middle frame is not dropped. -/
theorem C2_counterexample :
    c2vState.vsyncSpacing = 2 ∧ bufferingMode c2vState = BufMode.triple ∧
      (completeTransfer (completeTransfer
          (update (update (update c2vState 11 false) 12 false) 13 false))).displayed
        = [11, 12, 13] := by decide

end ILI9488

namespace ILI9488

/-- Spinning until idle really reaches the idle state: the pending callback
can relaunch at most one transfer and installs no new callback. -/
lemma wait_dmaActive (s : DriverState) :
    (waitUpdateAsyncComplete s).dmaActive = false := by
  rcases s with ⟨fb1, fb2, d1, d2, mir, og, f2f, vs, rot, w, h, rm, per, dma,
    pcb, tsrc, disp, tr, mg, nbt, snf, smg, svs, ld, lso, pan⟩
  cases dma <;> cases pcb <;> cases mir <;> cases fb1 <;> cases fb2 <;>
    cases d1 <;> cases d2 <;>
      simp [waitUpdateAsyncComplete, completeTransfer, buffer2fullCB,
        updateAsyncBody, swapfb, swapdiff]

/-- After the wait, no secondary frame is queued, provided a queued frame
always comes with an active transfer and a pending callback. -/
lemma wait_fb2full (s : DriverState)
    (hq : s.fb2full = true → s.pcb = true ∧ s.dmaActive = true) :
    (waitUpdateAsyncComplete s).fb2full = false := by
  rcases s with ⟨fb1, fb2, d1, d2, mir, og, f2f, vs, rot, w, h, rm, per, dma,
    pcb, tsrc, disp, tr, mg, nbt, snf, smg, svs, ld, lso, pan⟩
  dsimp only at hq
  cases dma <;> cases pcb <;> cases f2f <;> cases mir <;> cases fb1 <;>
    cases fb2 <;> cases d1 <;> cases d2 <;>
      simp_all [waitUpdateAsyncComplete, completeTransfer, buffer2fullCB,
        updateAsyncBody, swapfb, swapdiff]

/-- The wait only appends to the display history. -/
lemma wait_displayed (s : DriverState) :
    ∃ t, (waitUpdateAsyncComplete s).displayed = s.displayed ++ t := by
  rcases s with ⟨fb1, fb2, d1, d2, mir, og, f2f, vs, rot, w, h, rm, per, dma,
    pcb, tsrc, disp, tr, mg, nbt, snf, smg, svs, ld, lso, pan⟩
  cases dma <;> cases pcb <;> cases mir <;> cases fb1 <;> cases fb2 <;>
    cases d1 <;> cases d2 <;>
      simp [waitUpdateAsyncComplete, completeTransfer, buffer2fullCB,
        updateAsyncBody, swapfb, swapdiff]

/-- Transfers are never cancelled: the wait lets an active transfer finish,
so its frame reaches the display history. -/
lemma wait_transfer_completes (s : DriverState) (hdma : s.dmaActive = true) :
    s.transferSrc ∈ (waitUpdateAsyncComplete s).displayed := by
  rcases s with ⟨fb1, fb2, d1, d2, mir, og, f2f, vs, rot, w, h, rm, per, dma,
    pcb, tsrc, disp, tr, mg, nbt, snf, smg, svs, ld, lso, pan⟩
  dsimp only at hdma
  subst hdma
  cases pcb <;> cases mir <;> cases fb1 <;> cases fb2 <;> cases d1 <;>
    cases d2 <;>
      simp [waitUpdateAsyncComplete, completeTransfer, buffer2fullCB,
        updateAsyncBody, swapfb, swapdiff]

/-- Claim C9, amended: `setRotation` (to a new rotation) and
`setFramebuffers` first wait for the active transfer to run to completion —
the active frame is fully displayed, never partially cancelled, and during
that wait a queued secondary frame is promoted and also transferred to the
panel (rather than being discarded, see the counter-example) — and only
then reset the mirror state to Unknown; afterwards no transfer is running
and no secondary frame is queued.  The hypothesis is the driver's
invariant that a queued secondary frame comes with an active transfer and
a pending completion callback. -/
theorem C9_reconfig_wait_then_reset (s : DriverState) (m0 : ℕ)
    (nfb1 nfb2 : Option Buf)
    (hq : s.fb2full = true → s.pcb = true ∧ s.dmaActive = true)
    (hrot : clip m0 0 3 ≠ s.rotation) :
    ((setRotation s m0).dmaActive = false ∧
        (setRotation s m0).mirrorfb = none ∧
        (setRotation s m0).ongoingDiff = false ∧
        (setRotation s m0).fb2full = false ∧
        (∃ t, (setRotation s m0).displayed = s.displayed ++ t) ∧
        (s.dmaActive = true → s.transferSrc ∈ (setRotation s m0).displayed)) ∧
      ((setFramebuffers s nfb1 nfb2).dmaActive = false ∧
        (setFramebuffers s nfb1 nfb2).mirrorfb = none ∧
        (setFramebuffers s nfb1 nfb2).ongoingDiff = false ∧
        (setFramebuffers s nfb1 nfb2).fb2full = false ∧
        (∃ t, (setFramebuffers s nfb1 nfb2).displayed = s.displayed ++ t) ∧
        (s.dmaActive = true →
          s.transferSrc ∈ (setFramebuffers s nfb1 nfb2).displayed)) := by
  refine ⟨⟨?_, ?_, ?_, ?_, ?_, ?_⟩, ?_, ?_, ?_, ?_, ?_, ?_⟩
  · dsimp only [setRotation]; rw [if_neg hrot]
    simpa [resync, statsReset] using wait_dmaActive s
  · dsimp only [setRotation]; rw [if_neg hrot]
    simp [resync, statsReset]
  · dsimp only [setRotation]; rw [if_neg hrot]
    simp [resync, statsReset]
  · dsimp only [setRotation]; rw [if_neg hrot]
    simpa [resync, statsReset] using wait_fb2full s hq
  · dsimp only [setRotation]; rw [if_neg hrot]
    simpa [resync, statsReset] using wait_displayed s
  · intro hdma
    dsimp only [setRotation]; rw [if_neg hrot]
    simpa [resync, statsReset] using wait_transfer_completes s hdma
  · dsimp only [setFramebuffers]
    simpa [resync] using wait_dmaActive s
  · dsimp only [setFramebuffers]; simp [resync]
  · dsimp only [setFramebuffers]; simp [resync]
  · dsimp only [setFramebuffers]; simp [resync]
  · dsimp only [setFramebuffers]
    simpa [resync] using wait_displayed s
  · intro hdma
    dsimp only [setFramebuffers]
    simpa [resync] using wait_transfer_completes s hdma

/-- The state of the C9 counter-example and witness: a triple-buffered
state mid-transfer (frame 5 on the wire) with frame 7 queued in `_fb2` and
the promotion callback pending. -/
def c9State : DriverState :=
  { baseState with fb2 := some ⟨2, 7⟩, dmaActive := true, transferSrc := 5,
                   pcb := true, fb2full := true, mirrorfb := some 2 }

/-- Witness for C9 (amended) at `c9State`, rotating `0 → 1` and
reassigning framebuffers. -/
theorem C9_reconfig_wait_then_reset_witness :
    (setRotation c9State 1).mirrorfb = none ∧
      (setRotation c9State 1).fb2full = false ∧
      (c9State.dmaActive = true →
        c9State.transferSrc ∈ (setRotation c9State 1).displayed) ∧
      (setFramebuffers c9State (some ⟨3, 0⟩) none).mirrorfb = none := by
  obtain ⟨⟨_, h2, _, h4, _, h6⟩, ⟨_, g2, _, _, _, _⟩⟩ :=
    C9_reconfig_wait_then_reset c9State 1 (some ⟨3, 0⟩) none
      (by decide) (by decide)
  exact ⟨h2, h4, h6, g2⟩

/-- Counter-example for C9 as stated: the queued secondary frame is not
discarded — `setRotation` from `c9State` first lets the active transfer of
frame 5 finish, then the completion callback promotes the queued frame 7
and transfers it too, so both frames reach the panel. -/
theorem C9_counterexample :
    c9State.fb2full = true ∧ c9State.fb2 = some ⟨2, 7⟩ ∧
      (setRotation c9State 1).displayed = [5, 7] := by decide

end ILI9488

namespace ILI9488

/-- Witness for C10 at the negative offset `-1000`
(sent address `(-1000 + 3*480) % 320 = 120`). -/
theorem C10_setScrollOffset_witness :
    0 ≤ setScrollOffset (-1000) ∧ setScrollOffset (-1000) < 320 ∧
      ∃ k : ℤ, 0 ≤ -1000 + k * 480 ∧
        setScrollOffset (-1000) = (-1000 + k * 480) % 320 ∧
        (0 ≤ (-1000 : ℤ) → k = 0) :=
  C10_setScrollOffset_spec (-1000)

end ILI9488
